import Mathlib

/-!
Verification of the resilient email delivery service
(circuit breaker, rate limiter, idempotency guard, retry/backoff,
fallback orchestration), shallowly embedded from the TypeScript source.

Time is modelled as an `Int` number of milliseconds; every operation that
reads `Date.now()` in the source takes the current clock as an argument,
and the retry delays advance the clock explicitly.
-/

/-! ## CircuitBreaker (src/utils/CircuitBreaker.ts) -/

inductive CircuitState where
  | CLOSED
  | OPEN
  | HALF_OPEN
deriving DecidableEq

structure CircuitBreakerConfig where
  failureThreshold : Nat
  recoveryTimeout : Int
  monitoringWindow : Int
deriving DecidableEq

structure CircuitBreaker where
  state : CircuitState
  failureCount : Nat
  lastFailureTime : Int
  nextAttemptTime : Int
  config : CircuitBreakerConfig
deriving DecidableEq

/-- The constructor's initial field values (state CLOSED, all counters 0). -/
def CircuitBreaker.init (config : CircuitBreakerConfig) : CircuitBreaker :=
  { state := .CLOSED, failureCount := 0, lastFailureTime := 0,
    nextAttemptTime := 0, config := config }

/-- `canExecute()`: returns the boolean and the (possibly mutated) breaker. -/
def CircuitBreaker.canExecute (cb : CircuitBreaker) (now : Int) :
    Bool × CircuitBreaker :=
  match cb.state with
  | .CLOSED => (true, cb)
  | .OPEN =>
      if cb.nextAttemptTime ≤ now then
        (true, { cb with state := .HALF_OPEN })
      else
        (false, cb)
  | .HALF_OPEN => (true, cb)

/-- `recordSuccess()`. -/
def CircuitBreaker.recordSuccess (cb : CircuitBreaker) : CircuitBreaker :=
  let cb := { cb with failureCount := 0 }
  if cb.state = .HALF_OPEN then { cb with state := .CLOSED } else cb

/-- `recordFailure()`: stale-window reset, increment, threshold trip, and the
half-open probe-failure reopen, in source order. -/
def CircuitBreaker.recordFailure (cb : CircuitBreaker) (now : Int) :
    CircuitBreaker :=
  let fc := if cb.config.monitoringWindow < now - cb.lastFailureTime then 0
            else cb.failureCount
  let cb := { cb with failureCount := fc + 1, lastFailureTime := now }
  let cb := if cb.config.failureThreshold ≤ cb.failureCount then
              { cb with state := .OPEN,
                        nextAttemptTime := now + cb.config.recoveryTimeout }
            else cb
  if cb.state = .HALF_OPEN then
    { cb with state := .OPEN,
              nextAttemptTime := now + cb.config.recoveryTimeout }
  else cb

/-- `reset()`. -/
def CircuitBreaker.reset (cb : CircuitBreaker) : CircuitBreaker :=
  { cb with state := .CLOSED, failureCount := 0, lastFailureTime := 0,
            nextAttemptTime := 0 }

/-- Record one failure per timestamp of the list, in order. -/
def recordFailures (cb : CircuitBreaker) (ts : List Int) : CircuitBreaker :=
  ts.foldl CircuitBreaker.recordFailure cb

/-- Sorted with consecutive gaps at most `W` ("within the monitoring window
of one another"). -/
def gapsOK (W : Int) : List Int → Bool
  | [] => true
  | [_] => true
  | a :: b :: ts => (decide (a ≤ b) && decide (b - a ≤ W)) && gapsOK W (b :: ts)

lemma gapsOK_cons_cons (W a b : Int) (l : List Int) :
    gapsOK W (a :: b :: l) = true ↔
      (a ≤ b ∧ b - a ≤ W) ∧ gapsOK W (b :: l) = true := by
  simp only [gapsOK, Bool.and_eq_true, decide_eq_true_eq]

lemma recordFailures_nil (cb : CircuitBreaker) : recordFailures cb [] = cb :=
  rfl

lemma recordFailures_cons (cb : CircuitBreaker) (t : Int) (ts : List Int) :
    recordFailures cb (t :: ts) = recordFailures (cb.recordFailure t) ts :=
  rfl

lemma recordFailure_closed_no_reset (cb : CircuitBreaker) (t : Int)
    (hst : cb.state = .CLOSED)
    (hgap : ¬ cb.config.monitoringWindow < t - cb.lastFailureTime)
    (hlt : cb.failureCount + 1 < cb.config.failureThreshold) :
    cb.recordFailure t =
      { state := cb.state, failureCount := cb.failureCount + 1,
        lastFailureTime := t, nextAttemptTime := cb.nextAttemptTime,
        config := cb.config } := by
  have hc : ¬ cb.config.failureThreshold ≤ cb.failureCount + 1 := by omega
  simp [CircuitBreaker.recordFailure, hgap, hc, hst]

lemma recordFailure_closed_trip (cb : CircuitBreaker) (t : Int)
    (hst : cb.state = .CLOSED)
    (hgap : ¬ cb.config.monitoringWindow < t - cb.lastFailureTime)
    (hge : cb.config.failureThreshold ≤ cb.failureCount + 1) :
    cb.recordFailure t =
      { state := .OPEN, failureCount := cb.failureCount + 1,
        lastFailureTime := t,
        nextAttemptTime := t + cb.config.recoveryTimeout,
        config := cb.config } := by
  simp [CircuitBreaker.recordFailure, hgap, hge, hst]

/-- A streak of in-window failures that stays strictly below the threshold
just accumulates `failureCount` and keeps the breaker CLOSED. -/
lemma recordFailures_streak (ts : List Int) :
    ∀ cb : CircuitBreaker, cb.state = .CLOSED →
    gapsOK cb.config.monitoringWindow (cb.lastFailureTime :: ts) = true →
    cb.failureCount + ts.length < cb.config.failureThreshold →
    recordFailures cb ts =
      { state := cb.state, failureCount := cb.failureCount + ts.length,
        lastFailureTime := ts.getLastD cb.lastFailureTime,
        nextAttemptTime := cb.nextAttemptTime, config := cb.config } := by
  induction ts with
  | nil =>
    intro cb hst _ _
    simp [recordFailures_nil]
  | cons t ts ih =>
    intro cb hst hgap hlt
    rw [gapsOK_cons_cons] at hgap
    have hstep := recordFailure_closed_no_reset cb t hst (by omega)
      (by simp at hlt; omega)
    have hrec := ih
      { state := cb.state, failureCount := cb.failureCount + 1,
        lastFailureTime := t, nextAttemptTime := cb.nextAttemptTime,
        config := cb.config }
      hst hgap.2 (show cb.failureCount + 1 + ts.length <
        cb.config.failureThreshold by simp at hlt; omega)
    rw [recordFailures_cons, hstep, hrec]
    simp only [List.getLastD_cons, List.length_cons]
    congr 1
    omega

/-- A streak of in-window failures whose length exactly reaches the threshold
trips the breaker OPEN at the time of its last failure. -/
lemma recordFailures_trip (ts : List Int) :
    ∀ cb : CircuitBreaker, cb.state = .CLOSED → ts ≠ [] →
    gapsOK cb.config.monitoringWindow (cb.lastFailureTime :: ts) = true →
    cb.failureCount + ts.length = cb.config.failureThreshold →
    (recordFailures cb ts).state = .OPEN ∧
    (recordFailures cb ts).nextAttemptTime =
      ts.getLastD 0 + cb.config.recoveryTimeout := by
  induction ts with
  | nil => intro cb _ hne _ _; exact absurd rfl hne
  | cons t ts ih =>
    intro cb hst _ hgap hlen
    rw [gapsOK_cons_cons] at hgap
    match ts, hlen, hgap with
    | [], hlen, hgap =>
      have hstep := recordFailure_closed_trip cb t hst (by omega)
        (by simp at hlen; omega)
      rw [recordFailures_cons, hstep]
      simp [recordFailures_nil]
    | t' :: ts', hlen, hgap =>
      have hstep := recordFailure_closed_no_reset cb t hst (by omega)
        (by simp at hlen; omega)
      have hrec := ih
        { state := cb.state, failureCount := cb.failureCount + 1,
          lastFailureTime := t, nextAttemptTime := cb.nextAttemptTime,
          config := cb.config }
        hst (by simp) hgap.2
        (show cb.failureCount + 1 + (t' :: ts').length =
          cb.config.failureThreshold by simp at hlen ⊢; omega)
      rw [recordFailures_cons, hstep]
      simpa [List.getLastD_cons] using hrec

/-- The very first `recordFailure` on a fresh breaker, below threshold:
the stale-window branch is a no-op because `failureCount` is already 0. -/
lemma recordFailure_init_below (cfg : CircuitBreakerConfig) (t : Int)
    (h : 2 ≤ cfg.failureThreshold) :
    (CircuitBreaker.init cfg).recordFailure t =
      { state := .CLOSED, failureCount := 1, lastFailureTime := t,
        nextAttemptTime := 0, config := cfg } := by
  have hc : ¬ cfg.failureThreshold ≤ 1 := by omega
  simp [CircuitBreaker.recordFailure, CircuitBreaker.init, ite_self, hc]

/-- The very first `recordFailure` on a fresh breaker with threshold ≤ 1
trips it immediately. -/
lemma recordFailure_init_trip (cfg : CircuitBreakerConfig) (t : Int)
    (h : cfg.failureThreshold ≤ 1) :
    (CircuitBreaker.init cfg).recordFailure t =
      { state := .OPEN, failureCount := 1, lastFailureTime := t,
        nextAttemptTime := t + cfg.recoveryTimeout, config := cfg } := by
  simp [CircuitBreaker.recordFailure, CircuitBreaker.init, ite_self, h]

lemma recordFailures_fresh_trip (cfg : CircuitBreakerConfig) (t : Int)
    (ts : List Int)
    (hts : gapsOK cfg.monitoringWindow (t :: ts) = true)
    (hlen : (t :: ts).length = cfg.failureThreshold) :
    (recordFailures (CircuitBreaker.init cfg) (t :: ts)).state = .OPEN ∧
    (recordFailures (CircuitBreaker.init cfg) (t :: ts)).nextAttemptTime =
      (t :: ts).getLastD 0 + cfg.recoveryTimeout := by
  match ts, hts, hlen with
  | [], hts, hlen =>
    have h1 := recordFailure_init_trip cfg t (by simp at hlen; omega)
    rw [recordFailures_cons, h1]
    simp [recordFailures_nil]
  | t' :: ts', hts, hlen =>
    have h1 := recordFailure_init_below cfg t (by simp at hlen; omega)
    rw [recordFailures_cons, h1]
    have hrec := recordFailures_trip (t' :: ts')
      { state := .CLOSED, failureCount := 1, lastFailureTime := t,
        nextAttemptTime := 0, config := cfg }
      rfl (by simp) hts
      (show 1 + (t' :: ts').length = cfg.failureThreshold by
        simp at hlen ⊢; omega)
    simpa [List.getLastD_cons] using hrec

/-- C1: From a freshly constructed (CLOSED) breaker, exactly
`failureThreshold` failures within the monitoring window of one another trip
the breaker OPEN with `nextAttemptTime = now + recoveryTimeout` (where `now`
is the time of the final failure), while one fewer failure leaves it CLOSED. -/
theorem circuitBreaker_threshold_trips_one_fewer_closed
    (cfg : CircuitBreakerConfig) (ts us : List Int)
    (hthr : 1 ≤ cfg.failureThreshold)
    (hts : gapsOK cfg.monitoringWindow ts = true)
    (hus : gapsOK cfg.monitoringWindow us = true)
    (hlen : ts.length = cfg.failureThreshold)
    (hlen' : us.length + 1 = cfg.failureThreshold) :
    (recordFailures (CircuitBreaker.init cfg) ts).state = .OPEN ∧
    (recordFailures (CircuitBreaker.init cfg) ts).nextAttemptTime =
      ts.getLastD 0 + cfg.recoveryTimeout ∧
    (recordFailures (CircuitBreaker.init cfg) us).state = .CLOSED := by
  have hmain : (recordFailures (CircuitBreaker.init cfg) ts).state = .OPEN ∧
      (recordFailures (CircuitBreaker.init cfg) ts).nextAttemptTime =
        ts.getLastD 0 + cfg.recoveryTimeout := by
    match ts, hts, hlen with
    | [], _, hlen => simp at hlen; omega
    | t :: ts, hts, hlen => exact recordFailures_fresh_trip cfg t ts hts hlen
  refine ⟨hmain.1, hmain.2, ?_⟩
  match us, hus, hlen' with
  | [], _, _ => simp [recordFailures_nil, CircuitBreaker.init]
  | u :: us, hus, hlen' =>
    have h1 := recordFailure_init_below cfg u (by simp at hlen'; omega)
    rw [recordFailures_cons, h1]
    rw [recordFailures_streak us
      { state := .CLOSED, failureCount := 1, lastFailureTime := u,
        nextAttemptTime := 0, config := cfg }
      rfl hus (show 1 + us.length < cfg.failureThreshold by
        simp at hlen' ⊢; omega)]

theorem circuitBreaker_threshold_trips_one_fewer_closed_witness :
    1 ≤ (⟨3, 30000, 60000⟩ : CircuitBreakerConfig).failureThreshold ∧
    gapsOK 60000 [0, 10, 20] = true ∧
    gapsOK 60000 [0, 10] = true ∧
    ([0, 10, 20] : List Int).length = 3 ∧
    ([0, 10] : List Int).length + 1 = 3 ∧
    ((recordFailures (CircuitBreaker.init ⟨3, 30000, 60000⟩)
        [0, 10, 20]).state = .OPEN ∧
     (recordFailures (CircuitBreaker.init ⟨3, 30000, 60000⟩)
        [0, 10, 20]).nextAttemptTime =
          ([0, 10, 20] : List Int).getLastD 0 + 30000 ∧
     (recordFailures (CircuitBreaker.init ⟨3, 30000, 60000⟩)
        [0, 10]).state = .CLOSED) :=
  ⟨by decide, by decide, by decide, by decide, by decide,
   circuitBreaker_threshold_trips_one_fewer_closed ⟨3, 30000, 60000⟩
     [0, 10, 20] [0, 10] (by decide) (by decide) (by decide) (by decide)
     (by decide)⟩

/-- C2: An OPEN breaker denies `canExecute` (leaving the state OPEN) while
`now < nextAttemptTime`; once `now >= nextAttemptTime` the next call flips
the state to HALF_OPEN as a side effect and returns true; and the transition
happens exactly once, since a subsequent call on the HALF_OPEN breaker
returns true without changing the breaker at all. -/
theorem circuitBreaker_open_canExecute_behaviour
    (cb hob : CircuitBreaker) (now later : Int)
    (hst : cb.state = .OPEN) (hhob : hob.state = .HALF_OPEN) :
    (now < cb.nextAttemptTime →
      cb.canExecute now = (false, cb)) ∧
    (cb.nextAttemptTime ≤ now →
      cb.canExecute now = (true, { cb with state := .HALF_OPEN })) ∧
    hob.canExecute later = (true, hob) := by
  refine ⟨?_, ?_, ?_⟩
  · intro h
    simp [CircuitBreaker.canExecute, hst]
    omega
  · intro h
    simp [CircuitBreaker.canExecute, hst, h]
  · simp [CircuitBreaker.canExecute, hhob]

theorem circuitBreaker_open_canExecute_behaviour_witness :
    (({ state := .OPEN, failureCount := 3, lastFailureTime := 20,
        nextAttemptTime := 100, config := ⟨3, 30000, 60000⟩ } :
          CircuitBreaker).state = .OPEN) ∧
    (((50 : Int) < 100 →
      ({ state := .OPEN, failureCount := 3, lastFailureTime := 20,
         nextAttemptTime := 100, config := ⟨3, 30000, 60000⟩ } :
           CircuitBreaker).canExecute 50 =
        (false, { state := .OPEN, failureCount := 3, lastFailureTime := 20,
                  nextAttemptTime := 100, config := ⟨3, 30000, 60000⟩ })) ∧
     ((100 : Int) ≤ 50 →
      ({ state := .OPEN, failureCount := 3, lastFailureTime := 20,
         nextAttemptTime := 100, config := ⟨3, 30000, 60000⟩ } :
           CircuitBreaker).canExecute 50 =
        (true, { state := .HALF_OPEN, failureCount := 3,
                 lastFailureTime := 20, nextAttemptTime := 100,
                 config := ⟨3, 30000, 60000⟩ })) ∧
     ({ state := .HALF_OPEN, failureCount := 0, lastFailureTime := 0,
        nextAttemptTime := 0, config := ⟨3, 30000, 60000⟩ } :
          CircuitBreaker).canExecute 7 =
       (true, { state := .HALF_OPEN, failureCount := 0, lastFailureTime := 0,
                nextAttemptTime := 0, config := ⟨3, 30000, 60000⟩ })) :=
  ⟨by decide,
   circuitBreaker_open_canExecute_behaviour
     { state := .OPEN, failureCount := 3, lastFailureTime := 20,
       nextAttemptTime := 100, config := ⟨3, 30000, 60000⟩ }
     { state := .HALF_OPEN, failureCount := 0, lastFailureTime := 0,
       nextAttemptTime := 0, config := ⟨3, 30000, 60000⟩ }
     50 7 (by decide) (by decide)⟩

/-- C3: A HALF_OPEN breaker is sent back to OPEN by a single `recordFailure`
with a freshly computed `nextAttemptTime = now + recoveryTimeout` (whatever
the threshold comparison says), and is sent to CLOSED with
`failureCount = 0` by a single `recordSuccess`. -/
theorem circuitBreaker_halfOpen_probe
    (cb : CircuitBreaker) (now : Int) (hst : cb.state = .HALF_OPEN) :
    (cb.recordFailure now).state = .OPEN ∧
    (cb.recordFailure now).nextAttemptTime =
      now + cb.config.recoveryTimeout ∧
    cb.recordSuccess =
      { cb with state := .CLOSED, failureCount := 0 } := by
  have hfail : (cb.recordFailure now).state = .OPEN ∧
      (cb.recordFailure now).nextAttemptTime =
        now + cb.config.recoveryTimeout := by
    by_cases hth : cb.config.failureThreshold ≤
        (if cb.config.monitoringWindow < now - cb.lastFailureTime then 0
         else cb.failureCount) + 1
    · simp [CircuitBreaker.recordFailure, hth]
    · simp [CircuitBreaker.recordFailure, hth, hst]
  exact ⟨hfail.1, hfail.2, by simp [CircuitBreaker.recordSuccess, hst]⟩

theorem circuitBreaker_halfOpen_probe_witness :
    (({ state := .HALF_OPEN, failureCount := 1, lastFailureTime := 5,
        nextAttemptTime := 40, config := ⟨3, 30000, 60000⟩ } :
          CircuitBreaker).state = .HALF_OPEN) ∧
    ((({ state := .HALF_OPEN, failureCount := 1, lastFailureTime := 5,
         nextAttemptTime := 40, config := ⟨3, 30000, 60000⟩ } :
           CircuitBreaker).recordFailure 70).state = .OPEN ∧
     (({ state := .HALF_OPEN, failureCount := 1, lastFailureTime := 5,
         nextAttemptTime := 40, config := ⟨3, 30000, 60000⟩ } :
           CircuitBreaker).recordFailure 70).nextAttemptTime = 70 + 30000 ∧
     ({ state := .HALF_OPEN, failureCount := 1, lastFailureTime := 5,
        nextAttemptTime := 40, config := ⟨3, 30000, 60000⟩ } :
          CircuitBreaker).recordSuccess =
       { state := .CLOSED, failureCount := 0, lastFailureTime := 5,
         nextAttemptTime := 40, config := ⟨3, 30000, 60000⟩ }) :=
  ⟨by decide,
   circuitBreaker_halfOpen_probe
     { state := .HALF_OPEN, failureCount := 1, lastFailureTime := 5,
       nextAttemptTime := 40, config := ⟨3, 30000, 60000⟩ }
     70 (by decide)⟩

/-! ## RateLimiter (src/utils/RateLimiterCheck.ts) -/

structure RateLimitWindow where
  timestamps : List Int
  windowSize : Int
  maxRequests : Nat
deriving DecidableEq

/-- The module-level `rateLimitWindow` constant. -/
def initialRateLimitWindow : RateLimitWindow :=
  { timestamps := [], windowSize := 60 * 1000, maxRequests := 10 }

/-- The filter that drops timestamps older than the window
(`now - timestamp < windowSize` keeps a timestamp). -/
def pruneTimestamps (now windowSize : Int) (ts : List Int) : List Int :=
  ts.filter fun t => decide (now - t < windowSize)

/-- `isRateLimited()`: prune, then either reject (true, nothing recorded) or
admit (false, `now` pushed). Returns the flag and the mutated window. -/
def isRateLimited (now : Int) (w : RateLimitWindow) :
    Bool × RateLimitWindow :=
  let pruned := pruneTimestamps now w.windowSize w.timestamps
  if w.maxRequests ≤ pruned.length then
    (true, { w with timestamps := pruned })
  else
    (false, { w with timestamps := pruned ++ [now] })

/-- Timestamps of the calls of `cs` (in order) that `isRateLimited` admits,
threading the window state through the whole call sequence. -/
def admittedTimes (w : RateLimitWindow) : List Int → List Int
  | [] => []
  | c :: cs =>
    (if (isRateLimited c w).1 then [] else [c]) ++
      admittedTimes (isRateLimited c w).2 cs

/-- How many elements of `l` lie in the half-open window `(T - W, T]`. -/
def inWindowCount (W T : Int) (l : List Int) : Nat :=
  (l.filter fun t => decide (T - W < t ∧ t ≤ T)).length

/-- Nondecreasing call times. -/
def monoLe : List Int → Bool
  | [] => true
  | [_] => true
  | a :: b :: l => decide (a ≤ b) && monoLe (b :: l)

lemma monoLe_cons_cons (a b : Int) (l : List Int) :
    monoLe (a :: b :: l) = true ↔ a ≤ b ∧ monoLe (b :: l) = true := by
  simp only [monoLe, Bool.and_eq_true, decide_eq_true_eq]

lemma filter_length_le_of_imp (p q : Int → Bool) (l : List Int)
    (h : ∀ a, p a = true → q a = true) :
    (l.filter p).length ≤ (l.filter q).length := by
  induction l with
  | nil => simp
  | cons a l ih =>
    by_cases hp : p a = true
    · simp [List.filter_cons, hp, h a hp]; omega
    · simp only [List.filter_cons]
      rw [if_neg (by simpa using hp)]
      cases hq : q a <;> simp [ih] <;> omega

lemma pruneTimestamps_pruneTimestamps (c0 c W : Int) (l : List Int)
    (h : c0 ≤ c) :
    pruneTimestamps c W (pruneTimestamps c0 W l) = pruneTimestamps c W l := by
  unfold pruneTimestamps
  rw [List.filter_filter]
  refine List.filter_congr fun t _ => ?_
  by_cases h1 : c - t < W <;> by_cases h2 : c0 - t < W <;>
    simp [h1, h2] <;> omega

lemma pruneTimestamps_append (now W : Int) (l m : List Int) :
    pruneTimestamps now W (l ++ m) =
      pruneTimestamps now W l ++ pruneTimestamps now W m := by
  simp [pruneTimestamps]

lemma inWindowCount_append (W T : Int) (l m : List Int) :
    inWindowCount W T (l ++ m) = inWindowCount W T l + inWindowCount W T m := by
  simp [inWindowCount]

/-- Core invariant of the sliding-window limiter: starting from a window
state holding exactly the previously admitted in-window timestamps, the
admitted timestamps never exceed `maxRequests` in any window interval. -/
lemma admittedTimes_window_bound (W : Int) (maxR : Nat) (hW : 0 < W) :
    ∀ (cs acc : List Int) (c0 : Int),
    monoLe (c0 :: cs) = true →
    (∀ t ∈ acc, t ≤ c0) →
    (∀ T, inWindowCount W T acc ≤ maxR) →
    ∀ T, inWindowCount W T
      (acc ++ admittedTimes ⟨pruneTimestamps c0 W acc, W, maxR⟩ cs) ≤ maxR := by
  intro cs
  induction cs with
  | nil =>
    intro acc c0 _ _ h3 T
    simpa [admittedTimes] using h3 T
  | cons c cs ih =>
    intro acc c0 hmono hle h3 T
    rw [monoLe_cons_cons] at hmono
    have hprune : pruneTimestamps c W (pruneTimestamps c0 W acc) =
        pruneTimestamps c W acc :=
      pruneTimestamps_pruneTimestamps c0 c W acc hmono.1
    by_cases hb : maxR ≤ (pruneTimestamps c W acc).length
    · have hstep : isRateLimited c ⟨pruneTimestamps c0 W acc, W, maxR⟩ =
          (true, ⟨pruneTimestamps c W acc, W, maxR⟩) := by
        simp [isRateLimited, hprune, hb]
      have := ih acc c hmono.2
        (fun t ht => le_trans (hle t ht) hmono.1) h3 T
      simpa [admittedTimes, hstep] using this
    · have hstep : isRateLimited c ⟨pruneTimestamps c0 W acc, W, maxR⟩ =
          (false, ⟨pruneTimestamps c W acc ++ [c], W, maxR⟩) := by
        simp [isRateLimited, hprune, hb]
      have hsingle : pruneTimestamps c W [c] = [c] := by
        simp [pruneTimestamps]; omega
      have hsplit : pruneTimestamps c W acc ++ [c] =
          pruneTimestamps c W (acc ++ [c]) := by
        rw [pruneTimestamps_append, hsingle]
      have h3' : ∀ T, inWindowCount W T (acc ++ [c]) ≤ maxR := by
        intro T'
        rw [inWindowCount_append]
        by_cases hc : T' - W < c ∧ c ≤ T'
        · have hone : inWindowCount W T' [c] = 1 := by
            simp [inWindowCount, hc]
          have hsub : inWindowCount W T' acc ≤
              (pruneTimestamps c W acc).length := by
            unfold inWindowCount pruneTimestamps
            refine filter_length_le_of_imp _ _ acc fun a ha => ?_
            simp only [decide_eq_true_eq] at ha ⊢
            omega
          omega
        · have hzero : inWindowCount W T' [c] = 0 := by
            simp [inWindowCount, hc]
          have := h3 T'
          omega
      have := ih (acc ++ [c]) c hmono.2 (by
          intro t ht
          rcases List.mem_append.1 ht with h | h
          · exact le_trans (hle t h) hmono.1
          · simp at h; omega) h3' T
      rw [← hsplit] at this
      simpa [admittedTimes, hstep, List.append_assoc] using this

/-- C7: With nondecreasing call times, the limiter admits at most
`maxRequests = 10` calls whose timestamps lie within any rolling
`windowSize = 60000` interval; a call is rejected exactly when the pruned
window already holds `maxRequests` admitted timestamps; and a rejected call
leaves only the pruned (previously admitted) timestamps behind — its own
timestamp is never recorded. -/
theorem rateLimiter_window_bound_and_reject_frame
    (cs : List Int) (T : Int) (hmono : monoLe cs = true)
    (w : RateLimitWindow) (now : Int)
    (hrej : (isRateLimited now w).1 = true) :
    inWindowCount 60000 T (admittedTimes initialRateLimitWindow cs) ≤ 10 ∧
    (isRateLimited now w).2.timestamps =
      pruneTimestamps now w.windowSize w.timestamps ∧
    ((isRateLimited now w).2.timestamps).Sublist w.timestamps ∧
    (isRateLimited now w).1 =
      decide (w.maxRequests ≤
        (pruneTimestamps now w.windowSize w.timestamps).length) := by
  have heq : (isRateLimited now w).1 =
      decide (w.maxRequests ≤
        (pruneTimestamps now w.windowSize w.timestamps).length) := by
    by_cases hb : w.maxRequests ≤
        (pruneTimestamps now w.windowSize w.timestamps).length
    · simp [isRateLimited, hb]
    · simp [isRateLimited, hb]
  have hts : (isRateLimited now w).2.timestamps =
      pruneTimestamps now w.windowSize w.timestamps := by
    rw [heq] at hrej
    simp only [decide_eq_true_eq] at hrej
    simp [isRateLimited, hrej]
  refine ⟨?_, hts, hts ▸ List.filter_sublist _, heq⟩
  match cs, hmono with
  | [], _ => simp [admittedTimes, inWindowCount]
  | c :: cs, hmono =>
    have hfirst : isRateLimited c initialRateLimitWindow =
        (false, ⟨[c], 60000, 10⟩) := by
      simp [isRateLimited, initialRateLimitWindow, pruneTimestamps]
    have hsingle : pruneTimestamps c 60000 [c] = [c] := by
      simp only [pruneTimestamps, List.filter_cons, List.filter_nil]
      rw [if_pos (by simp)]
    have hone : ∀ T' : Int, inWindowCount 60000 T' [c] ≤ 10 := by
      intro T'
      by_cases h : T' - 60000 < c ∧ c ≤ T' <;> simp [inWindowCount, h]
    have hbound := admittedTimes_window_bound 60000 10 (by norm_num)
      cs [c] c hmono
      (by intro t ht; simp at ht; omega)
      hone T
    rw [hsingle] at hbound
    simpa [admittedTimes, hfirst] using hbound

theorem rateLimiter_window_bound_and_reject_frame_witness :
    monoLe [0, 0, 0, 0, 0, 0, 0, 0, 0, 0, 0, 0] = true ∧
    (isRateLimited 0
      ⟨[0, 0, 0, 0, 0, 0, 0, 0, 0, 0], 60000, 10⟩).1 = true ∧
    (inWindowCount 60000 0
      (admittedTimes initialRateLimitWindow
        [0, 0, 0, 0, 0, 0, 0, 0, 0, 0, 0, 0]) ≤ 10 ∧
     (isRateLimited 0
        ⟨[0, 0, 0, 0, 0, 0, 0, 0, 0, 0], 60000, 10⟩).2.timestamps =
       pruneTimestamps 0 60000 [0, 0, 0, 0, 0, 0, 0, 0, 0, 0] ∧
     ((isRateLimited 0
        ⟨[0, 0, 0, 0, 0, 0, 0, 0, 0, 0], 60000, 10⟩).2.timestamps).Sublist
       [0, 0, 0, 0, 0, 0, 0, 0, 0, 0] ∧
     (isRateLimited 0
        ⟨[0, 0, 0, 0, 0, 0, 0, 0, 0, 0], 60000, 10⟩).1 =
       decide (10 ≤
         (pruneTimestamps 0 60000 [0, 0, 0, 0, 0, 0, 0, 0, 0, 0]).length)) :=
  ⟨by decide, by decide,
   rateLimiter_window_bound_and_reject_frame
     [0, 0, 0, 0, 0, 0, 0, 0, 0, 0, 0, 0] 0 (by decide)
     ⟨[0, 0, 0, 0, 0, 0, 0, 0, 0, 0], 60000, 10⟩ 0 (by decide)⟩

/-! ## IdempotencyCheck (src/utils/IdempotencyCheck.ts) -/

/-- `isDuplicate`: membership in the `SentRequests` set. -/
def isDuplicate (requestid : String) (sentRequests : List String) : Bool :=
  decide (requestid ∈ sentRequests)

/-- `markAsSent`: insertion into the `SentRequests` set. -/
def markAsSent (requestid : String) (sentRequests : List String) :
    List String :=
  if requestid ∈ sentRequests then sentRequests else requestid :: sentRequests

/-! ## EmailService (src/services/EmailService.ts)

The two concrete providers flip a `Math.random()` coin per attempt and throw
a fixed error message on failure; the model quantifies over the outcome
sequence (`behavior i` = attempt `i` succeeds). -/

structure EmailRequest where
  «to» : String
  subject : String
  body : String
  requestId : String
deriving DecidableEq

structure EmailStatus where
  success : Bool
  providerUsed : Option String
  attempts : Nat
  errorMessage : Option String
  timestamp : Int
  requestId : String
deriving DecidableEq

/-- `Omit<EmailStatus, 'timestamp' | 'requestId'>`. -/
structure AttemptResult where
  success : Bool
  providerUsed : Option String
  attempts : Nat
  errorMessage : Option String
deriving DecidableEq

def maxRetries : Nat := 3

def baseDelay : Int := 1000

def calculateExponentialBackoff (attemptNumber : Nat) : Int :=
  baseDelay * 2 ^ attemptNumber

def sendGridFailMsg : String := "SendGrid failed to send email"

def mailgunFailMsg : String := "Mailgun failed to send email"

/-- How a JS template literal renders a possibly-undefined string field. -/
def optMsg : Option String → String
  | none => "undefined"
  | some s => s

/-- The retry `for` loop of `attemptSendWithCircuitBreaker`: `fuel` is the
number of remaining iterations (`fuel = maxRetries - i`), `i` the 0-based
attempt index. Returns the result, the breaker after `recordSuccess` /
`recordFailure`, the clock after the backoff delays, and the delays waited
(in order) between consecutive attempts. -/
def attemptLoop (behavior : Nat → Bool) (failMsg providerName : String) :
    Nat → Nat → CircuitBreaker → Int → List Int → String →
    AttemptResult × CircuitBreaker × Int × List Int
  | 0, i, cb, clock, delays, lastError =>
      ({ success := false, providerUsed := some providerName, attempts := i,
         errorMessage := some lastError },
       cb.recordFailure clock, clock, delays)
  | fuel + 1, i, cb, clock, delays, _lastError =>
      if behavior i then
        ({ success := true, providerUsed := some providerName,
           attempts := i + 1, errorMessage := none },
         cb.recordSuccess, clock, delays)
      else if fuel = 0 then
        attemptLoop behavior failMsg providerName fuel (i + 1) cb clock
          delays failMsg
      else
        attemptLoop behavior failMsg providerName fuel (i + 1) cb
          (clock + calculateExponentialBackoff i)
          (delays ++ [calculateExponentialBackoff i]) failMsg

/-- `attemptSendWithCircuitBreaker`: breaker check, then the retry loop. -/
def attemptSendWithCircuitBreaker (behavior : Nat → Bool)
    (failMsg providerName : String) (cb : CircuitBreaker) (clock : Int) :
    AttemptResult × CircuitBreaker × Int × List Int :=
  if (cb.canExecute clock).1 then
    attemptLoop behavior failMsg providerName maxRetries 0
      (cb.canExecute clock).2 clock [] ""
  else
    ({ success := false, providerUsed := some providerName, attempts := 0,
       errorMessage := some ("Circuit breaker is OPEN - " ++ providerName ++
         " temporarily unavailable") },
     (cb.canExecute clock).2, clock, [])

/-- The `EmailService` instance fields that `sendEmail` reads and mutates. -/
structure ServiceState where
  sendGridCircuitBreaker : CircuitBreaker
  mailgunCircuitBreaker : CircuitBreaker
  rateLimitWindow : RateLimitWindow
  sentRequests : List String
deriving DecidableEq

/-- `sendEmail`: idempotency check, rate-limit check, primary provider,
fallback provider, aggregate failure. Returns the `EmailStatus`, the mutated
service state, and the clock when the call returns. -/
def sendEmail (sgBehavior mgBehavior : Nat → Bool) (req : EmailRequest)
    (st : ServiceState) (clock : Int) :
    EmailStatus × ServiceState × Int :=
  if isDuplicate req.requestId st.sentRequests then
    ({ success := false, providerUsed := none, attempts := 0,
       errorMessage := some "Duplicate request - email already sent",
       timestamp := clock, requestId := req.requestId }, st, clock)
  else if (isRateLimited clock st.rateLimitWindow).1 then
    ({ success := false, providerUsed := none, attempts := 0,
       errorMessage := some "Rate limit exceeded - please try again later",
       timestamp := clock, requestId := req.requestId },
     { st with rateLimitWindow := (isRateLimited clock st.rateLimitWindow).2 },
     clock)
  else
    let st1 : ServiceState :=
      { st with rateLimitWindow := (isRateLimited clock st.rateLimitWindow).2 }
    let pA := attemptSendWithCircuitBreaker sgBehavior sendGridFailMsg
      "SendGrid" st1.sendGridCircuitBreaker clock
    let st2 : ServiceState := { st1 with sendGridCircuitBreaker := pA.2.1 }
    if pA.1.success then
      ({ success := pA.1.success, providerUsed := pA.1.providerUsed,
         attempts := pA.1.attempts, errorMessage := pA.1.errorMessage,
         timestamp := clock, requestId := req.requestId },
       { st2 with sentRequests := markAsSent req.requestId st2.sentRequests },
       pA.2.2.1)
    else
      let fA := attemptSendWithCircuitBreaker mgBehavior mailgunFailMsg
        "Mailgun" st2.mailgunCircuitBreaker pA.2.2.1
      let st3 : ServiceState := { st2 with mailgunCircuitBreaker := fA.2.1 }
      if fA.1.success then
        ({ success := fA.1.success, providerUsed := fA.1.providerUsed,
           attempts := fA.1.attempts, errorMessage := fA.1.errorMessage,
           timestamp := clock, requestId := req.requestId },
         { st3 with sentRequests := markAsSent req.requestId st3.sentRequests },
         fA.2.2.1)
      else
        ({ success := false,
           providerUsed := some "Both providers failed or unavailable",
           attempts := pA.1.attempts + fA.1.attempts,
           errorMessage := some ("Primary: " ++ optMsg pA.1.errorMessage ++
             ", Fallback: " ++ optMsg fA.1.errorMessage),
           timestamp := clock, requestId := req.requestId }, st3, fA.2.2.1)

/-- `isAnyProviderAvailable`: short-circuit OR of the two breakers'
`canExecute`, threading their side effects. -/
def isAnyProviderAvailable (st : ServiceState) (now : Int) :
    Bool × ServiceState :=
  if (st.sendGridCircuitBreaker.canExecute now).1 then
    (true, { st with sendGridCircuitBreaker :=
      (st.sendGridCircuitBreaker.canExecute now).2 })
  else
    ((st.mailgunCircuitBreaker.canExecute now).1,
     { st with
        sendGridCircuitBreaker := (st.sendGridCircuitBreaker.canExecute now).2,
        mailgunCircuitBreaker :=
          (st.mailgunCircuitBreaker.canExecute now).2 })

/-- `getBestAvailableProvider`: first breaker (in priority order) that
admits execution. -/
def getBestAvailableProvider (st : ServiceState) (now : Int) :
    Option String × ServiceState :=
  if (st.sendGridCircuitBreaker.canExecute now).1 then
    (some "SendGrid", { st with sendGridCircuitBreaker :=
      (st.sendGridCircuitBreaker.canExecute now).2 })
  else if (st.mailgunCircuitBreaker.canExecute now).1 then
    (some "Mailgun",
     { st with
        sendGridCircuitBreaker := (st.sendGridCircuitBreaker.canExecute now).2,
        mailgunCircuitBreaker :=
          (st.mailgunCircuitBreaker.canExecute now).2 })
  else
    (none,
     { st with
        sendGridCircuitBreaker := (st.sendGridCircuitBreaker.canExecute now).2,
        mailgunCircuitBreaker :=
          (st.mailgunCircuitBreaker.canExecute now).2 })

lemma mem_markAsSent_self (a : String) (l : List String) :
    a ∈ markAsSent a l := by
  unfold markAsSent
  split
  · assumption
  · exact List.mem_cons_self a l

/-- C4 counterexample: on a duplicate requestId the outcome's error message
is the literal "Duplicate request - email already sent", not the claimed
"duplicate request". -/
theorem sendEmail_duplicate_message_counterexample :
    (sendEmail (fun _ => true) (fun _ => true)
        ⟨"a@b.c", "s", "b", "r1"⟩
        ⟨CircuitBreaker.init ⟨3, 30000, 60000⟩,
         CircuitBreaker.init ⟨3, 30000, 60000⟩,
         initialRateLimitWindow, ["r1"]⟩ 0).1.errorMessage =
      some "Duplicate request - email already sent" ∧
    ¬ (sendEmail (fun _ => true) (fun _ => true)
        ⟨"a@b.c", "s", "b", "r1"⟩
        ⟨CircuitBreaker.init ⟨3, 30000, 60000⟩,
         CircuitBreaker.init ⟨3, 30000, 60000⟩,
         initialRateLimitWindow, ["r1"]⟩ 0).1.errorMessage =
      some "duplicate request" := by
  decide

/-- C4 (amended): for a requestId already marked complete, `sendEmail`
returns success=false with attempts=0 and the duplicate-rejection error
message "Duplicate request - email already sent", leaving the whole service
state (both breakers, the rate window, the idempotency set) and the clock
unchanged — and the outcome is the same for every provider behaviour, so no
provider is invoked. -/
theorem sendEmail_duplicate_rejected (sgB mgB : Nat → Bool)
    (req : EmailRequest) (st : ServiceState) (clock : Int)
    (hdup : req.requestId ∈ st.sentRequests) :
    sendEmail sgB mgB req st clock =
      ({ success := false, providerUsed := none, attempts := 0,
         errorMessage := some "Duplicate request - email already sent",
         timestamp := clock, requestId := req.requestId }, st, clock) := by
  simp [sendEmail, isDuplicate, hdup]

theorem sendEmail_duplicate_rejected_witness :
    ("r1" : String) ∈ ["r1"] ∧
    sendEmail (fun _ => false) (fun _ => false) ⟨"x", "y", "z", "r1"⟩
        ⟨CircuitBreaker.init ⟨3, 30000, 60000⟩,
         CircuitBreaker.init ⟨3, 30000, 60000⟩,
         initialRateLimitWindow, ["r1"]⟩ 5 =
      ({ success := false, providerUsed := none, attempts := 0,
         errorMessage := some "Duplicate request - email already sent",
         timestamp := 5, requestId := "r1" },
       ⟨CircuitBreaker.init ⟨3, 30000, 60000⟩,
        CircuitBreaker.init ⟨3, 30000, 60000⟩,
        initialRateLimitWindow, ["r1"]⟩, 5) :=
  ⟨by decide,
   sendEmail_duplicate_rejected (fun _ => false) (fun _ => false)
     ⟨"x", "y", "z", "r1"⟩
     ⟨CircuitBreaker.init ⟨3, 30000, 60000⟩,
      CircuitBreaker.init ⟨3, 30000, 60000⟩,
      initialRateLimitWindow, ["r1"]⟩ 5 (by decide)⟩

/-- C9: every `sendEmail` call that returns success=false (duplicate,
rate-limited, or all providers denied/exhausted) leaves the idempotency
store unchanged: `markAsSent` runs only on the two success return paths, so
the failed call does not poison the requestId. -/
theorem sendEmail_failure_preserves_idempotency (sgB mgB : Nat → Bool)
    (req : EmailRequest) (st : ServiceState) (clock : Int)
    (hfail : (sendEmail sgB mgB req st clock).1.success = false) :
    (sendEmail sgB mgB req st clock).2.1.sentRequests = st.sentRequests := by
  by_cases h1 : isDuplicate req.requestId st.sentRequests = true
  · simp [sendEmail, h1]
  · by_cases h2 : (isRateLimited clock st.rateLimitWindow).1 = true
    · simp [sendEmail, h1, h2]
    · by_cases h3 : (attemptSendWithCircuitBreaker sgB sendGridFailMsg
          "SendGrid" st.sendGridCircuitBreaker clock).1.success = true
      · simp [sendEmail, h1, h2, h3] at hfail
      · by_cases h4 : (attemptSendWithCircuitBreaker mgB mailgunFailMsg
            "Mailgun" st.mailgunCircuitBreaker
            (attemptSendWithCircuitBreaker sgB sendGridFailMsg "SendGrid"
              st.sendGridCircuitBreaker clock).2.2.1).1.success = true
        · simp [sendEmail, h1, h2, h3, h4] at hfail
        · simp [sendEmail, h1, h2, h3, h4]

theorem sendEmail_failure_preserves_idempotency_witness :
    (sendEmail (fun _ => false) (fun _ => false) ⟨"x", "y", "z", "r3"⟩
        ⟨CircuitBreaker.init ⟨3, 30000, 60000⟩,
         CircuitBreaker.init ⟨3, 30000, 60000⟩,
         initialRateLimitWindow, []⟩ 0).1.success = false ∧
    (sendEmail (fun _ => false) (fun _ => false) ⟨"x", "y", "z", "r3"⟩
        ⟨CircuitBreaker.init ⟨3, 30000, 60000⟩,
         CircuitBreaker.init ⟨3, 30000, 60000⟩,
         initialRateLimitWindow, []⟩ 0).2.1.sentRequests = [] :=
  ⟨by decide,
   sendEmail_failure_preserves_idempotency (fun _ => false) (fun _ => false)
     ⟨"x", "y", "z", "r3"⟩
     ⟨CircuitBreaker.init ⟨3, 30000, 60000⟩,
      CircuitBreaker.init ⟨3, 30000, 60000⟩,
      initialRateLimitWindow, []⟩ 0 (by decide)⟩

/-- C5 counterexample: when both breakers are OPEN (retry windows not yet
reached), the aggregate failure outcome's `providerUsed` is the literal
"Both providers failed or unavailable", not "none". -/
theorem sendEmail_all_fail_providerUsed_counterexample :
    (sendEmail (fun _ => true) (fun _ => true) ⟨"a", "s", "b", "r9"⟩
        ⟨⟨.OPEN, 3, 0, 1000, ⟨3, 30000, 60000⟩⟩,
         ⟨.OPEN, 3, 0, 1000, ⟨3, 30000, 60000⟩⟩,
         initialRateLimitWindow, []⟩ 0).1.providerUsed =
      some "Both providers failed or unavailable" ∧
    ¬ (sendEmail (fun _ => true) (fun _ => true) ⟨"a", "s", "b", "r9"⟩
        ⟨⟨.OPEN, 3, 0, 1000, ⟨3, 30000, 60000⟩⟩,
         ⟨.OPEN, 3, 0, 1000, ⟨3, 30000, 60000⟩⟩,
         initialRateLimitWindow, []⟩ 0).1.providerUsed = some "none" := by
  decide

/-- C5 (amended): when a request passes the duplicate and rate-limit checks
but the primary attempt run fails (breaker-denied or retries exhausted) and
the fallback attempt run fails too, `sendEmail` returns success=false,
attempts summed across the two providers (0 when both breakers deny), an
error message concatenating the two providers' failure reasons labelled
"Primary:" / "Fallback:", and the literal
`providerUsed = "Both providers failed or unavailable"`. -/
theorem sendEmail_all_providers_fail_aggregate (sgB mgB : Nat → Bool)
    (req : EmailRequest) (st : ServiceState) (clock : Int)
    (hdup : req.requestId ∉ st.sentRequests)
    (hrl : (isRateLimited clock st.rateLimitWindow).1 = false)
    (hp : (attemptSendWithCircuitBreaker sgB sendGridFailMsg "SendGrid"
        st.sendGridCircuitBreaker clock).1.success = false)
    (hf : (attemptSendWithCircuitBreaker mgB mailgunFailMsg "Mailgun"
        st.mailgunCircuitBreaker
        (attemptSendWithCircuitBreaker sgB sendGridFailMsg "SendGrid"
          st.sendGridCircuitBreaker clock).2.2.1).1.success = false) :
    (sendEmail sgB mgB req st clock).1 =
      { success := false,
        providerUsed := some "Both providers failed or unavailable",
        attempts :=
          (attemptSendWithCircuitBreaker sgB sendGridFailMsg "SendGrid"
            st.sendGridCircuitBreaker clock).1.attempts +
          (attemptSendWithCircuitBreaker mgB mailgunFailMsg "Mailgun"
            st.mailgunCircuitBreaker
            (attemptSendWithCircuitBreaker sgB sendGridFailMsg "SendGrid"
              st.sendGridCircuitBreaker clock).2.2.1).1.attempts,
        errorMessage := some ("Primary: " ++
          optMsg (attemptSendWithCircuitBreaker sgB sendGridFailMsg "SendGrid"
            st.sendGridCircuitBreaker clock).1.errorMessage ++
          ", Fallback: " ++
          optMsg (attemptSendWithCircuitBreaker mgB mailgunFailMsg "Mailgun"
            st.mailgunCircuitBreaker
            (attemptSendWithCircuitBreaker sgB sendGridFailMsg "SendGrid"
              st.sendGridCircuitBreaker clock).2.2.1).1.errorMessage),
        timestamp := clock, requestId := req.requestId } := by
  simp [sendEmail, isDuplicate, hdup, hrl, hp, hf]

theorem sendEmail_all_providers_fail_aggregate_witness :
    ¬ ("r8" : String) ∈ ([] : List String) ∧
    (isRateLimited 0 initialRateLimitWindow).1 = false ∧
    (attemptSendWithCircuitBreaker (fun _ => true) sendGridFailMsg "SendGrid"
      ⟨.OPEN, 3, 0, 1000, ⟨3, 30000, 60000⟩⟩ 0).1.success = false ∧
    (sendEmail (fun _ => true) (fun _ => true) ⟨"a", "s", "b", "r8"⟩
        ⟨⟨.OPEN, 3, 0, 1000, ⟨3, 30000, 60000⟩⟩,
         ⟨.OPEN, 3, 0, 1000, ⟨3, 30000, 60000⟩⟩,
         initialRateLimitWindow, []⟩ 0).1 =
      { success := false,
        providerUsed := some "Both providers failed or unavailable",
        attempts := 0,
        errorMessage := some
          ("Primary: Circuit breaker is OPEN - SendGrid temporarily unavailable, Fallback: Circuit breaker is OPEN - Mailgun temporarily unavailable"),
        timestamp := 0, requestId := "r8" } :=
  ⟨by decide, by decide, by decide,
   sendEmail_all_providers_fail_aggregate (fun _ => true) (fun _ => true)
     ⟨"a", "s", "b", "r8"⟩
     ⟨⟨.OPEN, 3, 0, 1000, ⟨3, 30000, 60000⟩⟩,
      ⟨.OPEN, 3, 0, 1000, ⟨3, 30000, 60000⟩⟩,
      initialRateLimitWindow, []⟩ 0
     (by decide) (by decide) (by decide) (by decide)⟩

/-- C6: with `maxRetries = 3` and `baseDelay = 1000`, the attempt run that
fails all three attempts waits exactly 1000ms between attempts 1 and 2 and
2000ms between attempts 2 and 3 (the delay list is exactly `[1000, 2000]` —
no delay before the first attempt and none after the last); a run whose
second attempt succeeds waits only the initial 1000ms and stops (attempts=2);
a run whose first attempt succeeds waits nothing (attempts=1). -/
theorem retry_backoff_delay_sequence (b c d : Nat → Bool)
    (failMsg providerName : String) (cb : CircuitBreaker) (clock : Int)
    (hst : cb.state = .CLOSED)
    (hb0 : b 0 = false) (hb1 : b 1 = false) (hb2 : b 2 = false)
    (hc0 : c 0 = false) (hc1 : c 1 = true)
    (hd0 : d 0 = true) :
    ((attemptSendWithCircuitBreaker b failMsg providerName cb clock).2.2.2 =
        [1000, 2000] ∧
     (attemptSendWithCircuitBreaker b failMsg providerName cb
        clock).1.attempts = 3) ∧
    ((attemptSendWithCircuitBreaker c failMsg providerName cb clock).2.2.2 =
        [1000] ∧
     (attemptSendWithCircuitBreaker c failMsg providerName cb
        clock).1.attempts = 2 ∧
     (attemptSendWithCircuitBreaker c failMsg providerName cb
        clock).1.success = true) ∧
    ((attemptSendWithCircuitBreaker d failMsg providerName cb clock).2.2.2 =
        [] ∧
     (attemptSendWithCircuitBreaker d failMsg providerName cb
        clock).1.attempts = 1 ∧
     (attemptSendWithCircuitBreaker d failMsg providerName cb
        clock).1.success = true) := by
  simp [attemptSendWithCircuitBreaker, CircuitBreaker.canExecute, hst,
    maxRetries, attemptLoop, hb0, hb1, hb2, hc0, hc1, hd0,
    calculateExponentialBackoff, baseDelay]

theorem retry_backoff_delay_sequence_witness :
    ((CircuitBreaker.init ⟨3, 30000, 60000⟩).state = .CLOSED) ∧
    ((attemptSendWithCircuitBreaker (fun _ => false) sendGridFailMsg
        "SendGrid" (CircuitBreaker.init ⟨3, 30000, 60000⟩) 0).2.2.2 =
        [1000, 2000] ∧
     (attemptSendWithCircuitBreaker (fun _ => false) sendGridFailMsg
        "SendGrid" (CircuitBreaker.init ⟨3, 30000, 60000⟩) 0).1.attempts =
        3) ∧
    ((attemptSendWithCircuitBreaker (fun i => decide (i = 1)) sendGridFailMsg
        "SendGrid" (CircuitBreaker.init ⟨3, 30000, 60000⟩) 0).2.2.2 =
        [1000] ∧
     (attemptSendWithCircuitBreaker (fun i => decide (i = 1)) sendGridFailMsg
        "SendGrid" (CircuitBreaker.init ⟨3, 30000, 60000⟩) 0).1.attempts =
        2 ∧
     (attemptSendWithCircuitBreaker (fun i => decide (i = 1)) sendGridFailMsg
        "SendGrid" (CircuitBreaker.init ⟨3, 30000, 60000⟩) 0).1.success =
        true) ∧
    ((attemptSendWithCircuitBreaker (fun _ => true) sendGridFailMsg
        "SendGrid" (CircuitBreaker.init ⟨3, 30000, 60000⟩) 0).2.2.2 = [] ∧
     (attemptSendWithCircuitBreaker (fun _ => true) sendGridFailMsg
        "SendGrid" (CircuitBreaker.init ⟨3, 30000, 60000⟩) 0).1.attempts =
        1 ∧
     (attemptSendWithCircuitBreaker (fun _ => true) sendGridFailMsg
        "SendGrid" (CircuitBreaker.init ⟨3, 30000, 60000⟩) 0).1.success =
        true) :=
  ⟨by decide,
   retry_backoff_delay_sequence (fun _ => false) (fun i => decide (i = 1))
     (fun _ => true) sendGridFailMsg "SendGrid"
     (CircuitBreaker.init ⟨3, 30000, 60000⟩) 0 (by decide) (by decide)
     (by decide) (by decide) (by decide) (by decide) (by decide)⟩

/-- C8: when the request passes the duplicate and rate-limit checks, both
breakers are CLOSED, the primary (SendGrid) fails all three attempts, and
the fallback (Mailgun) fails its first attempt but succeeds on its second:
the outcome is success=true, providerUsed="Mailgun", attempts=2 (the
successful provider's attempt count only, not the cross-provider total of
5), the timestamp is the clock at the start of `sendEmail` (even though the
call finishes 4000ms of backoff later), the Mailgun breaker receives
`recordSuccess`, and the requestId is marked complete. -/
theorem sendEmail_fallback_success_attempts (sgB mgB : Nat → Bool)
    (req : EmailRequest) (st : ServiceState) (clock : Int)
    (hdup : req.requestId ∉ st.sentRequests)
    (hrl : (isRateLimited clock st.rateLimitWindow).1 = false)
    (hsg : st.sendGridCircuitBreaker.state = .CLOSED)
    (hmg : st.mailgunCircuitBreaker.state = .CLOSED)
    (h0 : sgB 0 = false) (h1 : sgB 1 = false) (h2 : sgB 2 = false)
    (g0 : mgB 0 = false) (g1 : mgB 1 = true) :
    (sendEmail sgB mgB req st clock).1 =
      { success := true, providerUsed := some "Mailgun", attempts := 2,
        errorMessage := none, timestamp := clock,
        requestId := req.requestId } ∧
    (sendEmail sgB mgB req st clock).2.1.mailgunCircuitBreaker =
      st.mailgunCircuitBreaker.recordSuccess ∧
    req.requestId ∈ (sendEmail sgB mgB req st clock).2.1.sentRequests ∧
    (sendEmail sgB mgB req st clock).2.2 = clock + 4000 := by
  refine ⟨?_, ?_, ?_, ?_⟩
  · simp [sendEmail, isDuplicate, hdup, hrl, attemptSendWithCircuitBreaker,
      CircuitBreaker.canExecute, hsg, hmg, maxRetries, attemptLoop,
      h0, h1, h2, g0, g1]
  · simp [sendEmail, isDuplicate, hdup, hrl, attemptSendWithCircuitBreaker,
      CircuitBreaker.canExecute, hsg, hmg, maxRetries, attemptLoop,
      h0, h1, h2, g0, g1]
  · simp [sendEmail, isDuplicate, hdup, hrl, attemptSendWithCircuitBreaker,
      CircuitBreaker.canExecute, hsg, hmg, maxRetries, attemptLoop,
      h0, h1, h2, g0, g1, mem_markAsSent_self]
  · simp [sendEmail, isDuplicate, hdup, hrl, attemptSendWithCircuitBreaker,
      CircuitBreaker.canExecute, hsg, hmg, maxRetries, attemptLoop,
      h0, h1, h2, g0, g1, calculateExponentialBackoff, baseDelay]
    omega

theorem sendEmail_fallback_success_attempts_witness :
    ¬ ("r5" : String) ∈ ([] : List String) ∧
    (isRateLimited 100 initialRateLimitWindow).1 = false ∧
    ((sendEmail (fun _ => false) (fun i => decide (i = 1))
        ⟨"a", "s", "b", "r5"⟩
        ⟨CircuitBreaker.init ⟨3, 30000, 60000⟩,
         CircuitBreaker.init ⟨3, 30000, 60000⟩,
         initialRateLimitWindow, []⟩ 100).1 =
      { success := true, providerUsed := some "Mailgun", attempts := 2,
        errorMessage := none, timestamp := 100, requestId := "r5" } ∧
     (sendEmail (fun _ => false) (fun i => decide (i = 1))
        ⟨"a", "s", "b", "r5"⟩
        ⟨CircuitBreaker.init ⟨3, 30000, 60000⟩,
         CircuitBreaker.init ⟨3, 30000, 60000⟩,
         initialRateLimitWindow, []⟩ 100).2.1.mailgunCircuitBreaker =
       (CircuitBreaker.init ⟨3, 30000, 60000⟩).recordSuccess ∧
     ("r5" : String) ∈ (sendEmail (fun _ => false) (fun i => decide (i = 1))
        ⟨"a", "s", "b", "r5"⟩
        ⟨CircuitBreaker.init ⟨3, 30000, 60000⟩,
         CircuitBreaker.init ⟨3, 30000, 60000⟩,
         initialRateLimitWindow, []⟩ 100).2.1.sentRequests ∧
     (sendEmail (fun _ => false) (fun i => decide (i = 1))
        ⟨"a", "s", "b", "r5"⟩
        ⟨CircuitBreaker.init ⟨3, 30000, 60000⟩,
         CircuitBreaker.init ⟨3, 30000, 60000⟩,
         initialRateLimitWindow, []⟩ 100).2.2 = 100 + 4000) :=
  ⟨by decide, by decide,
   sendEmail_fallback_success_attempts (fun _ => false)
     (fun i => decide (i = 1)) ⟨"a", "s", "b", "r5"⟩
     ⟨CircuitBreaker.init ⟨3, 30000, 60000⟩,
      CircuitBreaker.init ⟨3, 30000, 60000⟩,
      initialRateLimitWindow, []⟩ 100
     (by decide) (by decide) (by decide) (by decide) (by decide) (by decide)
     (by decide) (by decide) (by decide)⟩

/-- C10: when the SendGrid breaker's `canExecute` returns true, both
`isAnyProviderAvailable` (short-circuit OR) and `getBestAvailableProvider`
return at the SendGrid breaker and never consult the Mailgun breaker, whose
state is unchanged — in particular an OPEN Mailgun breaker whose
`nextAttemptTime` has passed is not flipped to HALF_OPEN by these calls. -/
theorem availability_short_circuit_preserves_mailgun
    (st : ServiceState) (now : Int)
    (h : (st.sendGridCircuitBreaker.canExecute now).1 = true) :
    isAnyProviderAvailable st now =
      (true, { st with sendGridCircuitBreaker :=
        (st.sendGridCircuitBreaker.canExecute now).2 }) ∧
    getBestAvailableProvider st now =
      (some "SendGrid", { st with sendGridCircuitBreaker :=
        (st.sendGridCircuitBreaker.canExecute now).2 }) ∧
    (isAnyProviderAvailable st now).2.mailgunCircuitBreaker =
      st.mailgunCircuitBreaker ∧
    (getBestAvailableProvider st now).2.mailgunCircuitBreaker =
      st.mailgunCircuitBreaker := by
  refine ⟨?_, ?_, ?_, ?_⟩ <;>
    simp [isAnyProviderAvailable, getBestAvailableProvider, h]

theorem availability_short_circuit_preserves_mailgun_witness :
    ((⟨CircuitBreaker.init ⟨3, 30000, 60000⟩,
       ⟨.OPEN, 3, 0, 40, ⟨3, 30000, 60000⟩⟩,
       initialRateLimitWindow, []⟩ :
        ServiceState).sendGridCircuitBreaker.canExecute 50).1 = true ∧
    (isAnyProviderAvailable
      ⟨CircuitBreaker.init ⟨3, 30000, 60000⟩,
       ⟨.OPEN, 3, 0, 40, ⟨3, 30000, 60000⟩⟩,
       initialRateLimitWindow, []⟩ 50).2.mailgunCircuitBreaker =
      ⟨.OPEN, 3, 0, 40, ⟨3, 30000, 60000⟩⟩ ∧
    (getBestAvailableProvider
      ⟨CircuitBreaker.init ⟨3, 30000, 60000⟩,
       ⟨.OPEN, 3, 0, 40, ⟨3, 30000, 60000⟩⟩,
       initialRateLimitWindow, []⟩ 50).2.mailgunCircuitBreaker =
      ⟨.OPEN, 3, 0, 40, ⟨3, 30000, 60000⟩⟩ ∧
    (getBestAvailableProvider
      ⟨CircuitBreaker.init ⟨3, 30000, 60000⟩,
       ⟨.OPEN, 3, 0, 40, ⟨3, 30000, 60000⟩⟩,
       initialRateLimitWindow, []⟩ 50).1 = some "SendGrid" :=
  ⟨by decide,
   (availability_short_circuit_preserves_mailgun
     ⟨CircuitBreaker.init ⟨3, 30000, 60000⟩,
      ⟨.OPEN, 3, 0, 40, ⟨3, 30000, 60000⟩⟩,
      initialRateLimitWindow, []⟩ 50 (by decide)).2.2.1,
   (availability_short_circuit_preserves_mailgun
     ⟨CircuitBreaker.init ⟨3, 30000, 60000⟩,
      ⟨.OPEN, 3, 0, 40, ⟨3, 30000, 60000⟩⟩,
      initialRateLimitWindow, []⟩ 50 (by decide)).2.2.2,
   by decide⟩
